import Mathlib

/-!
A shallow embedding of `ftclient.py`, a two-channel file-transfer client.

The client encodes a fixed-format control request (`makeRequest`), listens on a
data port, connects a control channel, classifies the server's replies by a
substring test, and either prints a directory listing or streams a file from
the data connection to local storage (`receiveData`).  The top-level script is
modelled by `mainTrace`, which turns one session into an ordered trace of
observable events (socket operations, prints, file operations) together with
the process exit code.

Socket reads are modelled at the decode boundary: the environment supplies the
decoded text of each control-channel `recv` and the list of byte chunks the
data-channel `recv` loop returns (a chunk is what one `recv(1024)` call
yields; the empty chunk signals connection closure).
-/

namespace FTClient

/-- Maximum transmission size, `MAX_LIMIT = 1024` in the source. -/
def MAX_LIMIT : Nat := 1024

/-- Python's `needle in hay` on strings: `needle` occurs as a contiguous
substring of `hay`. -/
def pyIn (needle hay : String) : Prop := needle.data <:+: hay.data

instance (n h : String) : Decidable (pyIn n h) := by
  unfold pyIn; exact inferInstance

/-- Python's `s.strip(c)`: remove every leading and every trailing occurrence
of the character `c` (both ends, any number of copies). -/
def pyStrip (c : Char) (s : String) : String :=
  String.mk (((s.data.dropWhile (fun x => x == c)).reverse.dropWhile
      (fun x => x == c)).reverse)

/-- `getMsg(connection)`: receive up to `MAX_LIMIT` bytes, decode them as
UTF-8 and apply `data.strip('\n')`.  The recv/decode step is the model
boundary: `raw` is the decoded text of the received bytes. -/
def getMsg (raw : String) : String := pyStrip '\n' raw

/-- Python's `s.lower()` restricted to the basic latin range, matching
`Char.toLower`; the session only compares the result against `"n"`. -/
def pyLower (s : String) : String := String.mk (s.data.map Char.toLower)

/-- One fuel-bounded step of the padding loop
`while len(startString) < 99: startString += "#"`.  Fuel `99` is enough for
every start string: each iteration grows the length by one, so after at most
`99` iterations the guard fails. -/
def padLoop : Nat → String → String
  | 0, s => s
  | n + 1, s => if s.length < 99 then padLoop n (s.push '#') else s

/-- The padding loop of `makeRequest`, run with sufficient fuel. -/
def padTo99 (s : String) : String := padLoop 99 s

/-- The unpadded request content built by `makeRequest` before the padding
loop: `"PORTSTART:" + str(dataPort) + "PORTEND" + "CMD:"` followed by the
command body selected on `sys.argv[3]`. -/
def reqContent (dataPort : Nat) (cmd filename : String) : String :=
  let startString := "PORTSTART:" ++ toString dataPort ++ "PORTEND" ++ "CMD:"
  if cmd = "-l" then
    startString ++ "LIST"
  else if cmd = "-g" then
    startString ++ "GET" ++ "FILENAME:" ++ filename ++ "FILENAMEEND"
  else
    startString ++ "UNKNOWN"

/-- `makeRequest(dataPort)`: build the content, pad with `'#'` while shorter
than 99 characters, then append the `'\0'` terminator. -/
def makeRequest (dataPort : Nat) (cmd filename : String) : String :=
  (padTo99 (reqContent dataPort cmd filename)).push '\x00'

/-- Observable events of one client session, in program order. -/
inductive Event where
  | print (s : String)
  | prompt (s : String)
  | listenOpen
  | controlOpen
  | send (s : String)
  | acceptData
  | recvData
  | fileOpen (name : String)
  | fileWrite (chunk : List Nat)
  | closeControl
  | closeListener
  | closeData
  | crash
  deriving DecidableEq, Repr

/-- The `recv(1024)`/`f.write(data)` loop of the GET branch: each non-empty
chunk is written in order; the loop stops at the first empty chunk (or, when
the environment's list is exhausted, at the empty read produced by the closed
connection).  Every write is preceded by its read, and one final read returns
the empty chunk that breaks the loop. -/
def transferEvents (chunks : List (List Nat)) : List Event :=
  ((chunks.takeWhile (fun c => !c.isEmpty)).flatMap
      (fun c => [Event.recvData, Event.fileWrite c])) ++ [Event.recvData]

/-- Environment of one session: the command-line values the script reads and
the responses the outside world (server, filesystem, user) supplies. -/
structure Env where
  /-- `sys.argv[2]`, the control port string (echoed in a print). -/
  port : String
  /-- `sys.argv[3]`, the command token (`"-l"`, `"-g"`, or anything else). -/
  cmd : String
  /-- `sys.argv[4]`, the filename argument of a GET. -/
  filename : String
  /-- The data port the client listens on. -/
  dataPort : Nat
  /-- Whether the control-channel `connect` succeeds. -/
  connectOk : Bool
  /-- Decoded text of the first control-channel reply (`confirm`). -/
  confirmRaw : String
  /-- Decoded text of the second control-channel read (GET status). -/
  statusRaw : String
  /-- Decoded text of the single data-channel read of the LIST branch. -/
  listingRaw : String
  /-- Successive results of `recv(1024)` on the data connection (GET). -/
  chunks : List (List Nat)
  /-- Whether `os.path.isfile(sys.argv[4])` holds. -/
  fileExists : Bool
  /-- The user's answer to the overwrite prompt. -/
  answer : String

/-- `receiveData(controlFD, dataFD)`: dispatch on the command token; print a
listing, or run the GET protocol (deferred-error check on the control stream,
overwrite prompt, then the write loop). -/
def receiveData (e : Env) : List Event :=
  if e.cmd = "-l" then
    [Event.recvData, Event.print "Directory contents:",
     Event.print (getMsg e.listingRaw)]
  else if e.cmd = "-g" then
    let status := getMsg e.statusRaw
    if pyIn "ERROR" status then
      [Event.print ("Message from server: " ++ status),
       Event.closeControl, Event.closeData]
    else
      let promptEvs :=
        if e.fileExists then
          [Event.prompt (e.filename ++
            " already exists. Overwrite? N = no, anything else = yes")]
        else []
      if e.fileExists ∧ pyLower e.answer = "n" then
        promptEvs ++ [Event.print "Transfer aborted."]
      else
        promptEvs ++
          [Event.fileOpen e.filename,
           Event.print ("Transferring " ++ e.filename ++ ".")] ++
          transferEvents e.chunks ++
          [Event.print "Transfer complete."]
  else []

/-- The module-level script after `syntaxCheck`: listen on the data port,
connect the control channel (an exception there terminates the process with
no further event), send the request, classify `confirm` with the
`"ERROR:" in confirm` test, on the error branch print and close and exit 0,
otherwise accept the data connection, run `receiveData`, close everything and
exit 0.  Returns the event trace and the exit code (`none` = uncaught
exception). -/
def mainTrace (e : Env) : List Event × Option Nat :=
  let startString := makeRequest e.dataPort e.cmd e.filename
  let pre := [Event.listenOpen,
              Event.print ("Listening on data port " ++ toString e.dataPort)]
  if e.connectOk = false then
    (pre ++ [Event.crash], none)
  else
    let pre := pre ++ [Event.controlOpen, Event.send startString]
    let confirm := getMsg e.confirmRaw
    if pyIn "ERROR:" confirm then
      (pre ++ [Event.print confirm, Event.closeControl, Event.closeListener],
       some 0)
    else
      (pre ++
        [Event.print ("Connected to ftserver on control port " ++ e.port),
         Event.acceptData,
         Event.print ("ftserver connected on data port " ++
           toString e.dataPort)] ++
        receiveData e ++
        [Event.closeControl, Event.closeListener, Event.closeData,
         Event.print "** Operations complete. Closing connections. **"],
       some 0)

/-- The file writes recorded in a trace, in order. -/
def writesOf (tr : List Event) : List (List Nat) :=
  tr.filterMap (fun ev => match ev with
    | Event.fileWrite c => some c
    | _ => none)

/-- The final byte content of the written file: the concatenation of all
recorded writes. -/
def fileBytes (tr : List Event) : List Nat := (writesOf tr).flatten

/-- A convenient concrete environment for witness instances. -/
def baseEnv : Env :=
  { port := "30020", cmd := "-l", filename := "x.txt", dataPort := 30021,
    connectOk := true, confirmRaw := "OK", statusRaw := "OK",
    listingRaw := "a.txt\nb.txt\n", chunks := [], fileExists := false,
    answer := "" }

/-- Concrete GET environment (no local file, no server error, no chunks). -/
def envGet : Env := { baseEnv with cmd := "-g" }

/-- Concrete GET environment with two data chunks. -/
def envGetChunks : Env :=
  { baseEnv with cmd := "-g", chunks := [[49, 50, 51], [10]] }

/-- Concrete GET environment with an existing local file and answer "n". -/
def envGetExists : Env :=
  { baseEnv with cmd := "-g", fileExists := true, answer := "n" }

/-- Concrete GET environment with a deferred server error. -/
def envGetErr : Env :=
  { baseEnv with cmd := "-g", statusRaw := "ERROR: FILE NOT FOUND" }

/-- Concrete environment whose first control reply is an error message. -/
def envErrReply : Env :=
  { baseEnv with confirmRaw := "ERROR: invalid command" }

/-- The C8 claim's reading of `getMsg`, modelled from the spec sentence: the
delivered message equals the decoded text with only its trailing newline
removed. -/
def stripTrailingNewline (s : String) : String :=
  if s.data.getLast? = some '\n' then String.mk s.data.dropLast else s

/-! ### Padding lemmas -/

theorem padLoop_eq (n : Nat) (s : String) (h : 99 ≤ s.length + n) :
    padLoop n s = s ++ String.mk (List.replicate (99 - s.length) '#') := by
  induction n generalizing s with
  | zero =>
    have h0 : 99 - s.length = 0 := by omega
    simp only [padLoop, h0]
    apply String.ext
    simp
  | succ n ih =>
    simp only [padLoop]
    by_cases hlt : s.length < 99
    · rw [if_pos hlt, ih (s.push '#') (by simp; omega)]
      apply String.ext
      simp only [String.data_append, String.data_push, String.length_push]
      have hk : 99 - s.length = (99 - (s.length + 1)) + 1 := by omega
      rw [hk, List.replicate_succ]
      simp
    · rw [if_neg hlt]
      have h0 : 99 - s.length = 0 := by omega
      rw [h0]
      apply String.ext
      simp

theorem padTo99_eq (s : String) :
    padTo99 s = s ++ String.mk (List.replicate (99 - s.length) '#') :=
  padLoop_eq 99 s (by omega)

theorem length_padTo99 (s : String) : (padTo99 s).length = max s.length 99 := by
  rw [padTo99_eq]
  simp only [String.length_append, String.length_mk, List.length_replicate]
  omega

theorem makeRequest_data (dp : Nat) (cmd fn : String) :
    (makeRequest dp cmd fn).data
      = (reqContent dp cmd fn).data
          ++ List.replicate (99 - (reqContent dp cmd fn).length) '#'
          ++ ['\x00'] := by
  unfold makeRequest
  rw [padTo99_eq]
  simp [String.data_push, String.data_append]

theorem length_makeRequest (dp : Nat) (cmd fn : String) :
    (makeRequest dp cmd fn).length
      = max (reqContent dp cmd fn).length 99 + 1 := by
  unfold makeRequest
  simp [length_padTo99]

/-! ### Character, strip and trace helper lemmas -/


theorem head?_dropWhile_ne {α} (p : α → Bool) (l : List α) (a : α)
    (h : (l.dropWhile p).head? = some a) : p a = false := by
  have hh := List.head?_dropWhile_not p l
  rw [h] at hh
  exact hh

theorem takeWhile_nl_eq_replicate (l : List Char) :
    l.takeWhile (fun x => x == '\n')
      = List.replicate (l.takeWhile (fun x => x == '\n')).length '\n' := by
  apply List.eq_replicate_of_mem
  intro b hb
  have hp := List.mem_takeWhile_imp hb
  simpa using hp

/-- Claim C8 (amended): `getMsg` delivers the decoded text with all leading
and all trailing newline characters removed (Python's `strip('\n')` affects
both ends), every other character preserved in order: the received text is
exactly some leading newlines, then the delivered message — which neither
starts nor ends with a newline — then some trailing newlines. -/
theorem C8_amended_strip_newlines (raw : String) :
    (∃ a b, raw.data
        = List.replicate a '\n' ++ (getMsg raw).data ++ List.replicate b '\n')
    ∧ (getMsg raw).data.head? ≠ some '\n'
    ∧ (getMsg raw).data.getLast? ≠ some '\n' := by
  set p : Char → Bool := fun x => x == '\n' with hp
  set m : List Char := raw.data.dropWhile p with hm
  have hcore : (getMsg raw).data = (m.reverse.dropWhile p).reverse := rfl
  obtain ⟨a, hta⟩ : ∃ a, raw.data.takeWhile p = List.replicate a '\n' :=
    ⟨_, takeWhile_nl_eq_replicate raw.data⟩
  obtain ⟨b, hmsplit⟩ : ∃ b, m = (getMsg raw).data ++ List.replicate b '\n' := by
    refine ⟨(m.reverse.takeWhile p).length, ?_⟩
    conv_lhs => rw [← List.reverse_reverse m,
      ← List.takeWhile_append_dropWhile (p := p) (l := m.reverse)]
    rw [List.reverse_append, hcore]
    congr 1
    conv_lhs => rw [takeWhile_nl_eq_replicate m.reverse]
    rw [List.reverse_replicate]
  refine ⟨⟨a, b, ?_⟩, ?_, ?_⟩
  · conv_lhs => rw [← List.takeWhile_append_dropWhile (p := p) (l := raw.data)]
    rw [hta, ← hm, hmsplit, ← List.append_assoc]
  · intro hhd
    rcases hcd : (getMsg raw).data with _ | ⟨c, t⟩
    · rw [hcd] at hhd; simp at hhd
    · rw [hcd] at hhd
      simp at hhd
      subst hhd
      have hmh : m.head? = some '\n' := by
        rw [hmsplit, hcd]
        rfl
      have hne := head?_dropWhile_ne p raw.data '\n' (by rw [← hm]; exact hmh)
      simp [hp] at hne
  · intro hlast
    rw [List.getLast?_eq_head?_reverse, hcore, List.reverse_reverse] at hlast
    have hne := head?_dropWhile_ne p m.reverse '\n' hlast
    simp [hp] at hne

theorem toNat_ofNat_of_valid {n : Nat} (h : n.isValidChar) :
    (Char.ofNat n).toNat = n := by
  rw [Char.ofNat, dif_pos h]
  simp [Char.ofNatAux, Char.toNat, UInt32.toNat]

theorem toLower_eq_n_iff (c : Char) :
    Char.toLower c = 'n' ↔ c = 'n' ∨ c = 'N' := by
  constructor
  · intro h
    simp only [Char.toLower] at h
    split at h
    · rename_i hb
      have hv : (Char.toNat c + 32).isValidChar := by
        rcases hb with ⟨h1, h2⟩
        exact Or.inl (by omega)
      have h110 := congrArg Char.toNat h
      rw [toNat_ofNat_of_valid hv] at h110
      have hn : Char.toNat 'n' = 110 := by decide
      rw [hn] at h110
      have hc : Char.toNat c = 78 := by omega
      right
      have h78 := congrArg Char.ofNat hc
      rw [Char.ofNat_toNat] at h78
      rw [h78]
    · exact Or.inl h
  · rintro (rfl | rfl) <;> decide

theorem pyLower_eq_n_iff (s : String) :
    pyLower s = "n" ↔ s = "n" ∨ s = "N" := by
  obtain ⟨l⟩ := s
  constructor
  · intro h
    have hd : l.map Char.toLower = ['n'] := congrArg String.data h
    match l, hd with
    | [], hd => simp at hd
    | [c], hd =>
      have hc : Char.toLower c = 'n' := by simpa using hd
      rcases (toLower_eq_n_iff c).mp hc with rfl | rfl
      · exact Or.inl rfl
      · exact Or.inr rfl
    | c :: c2 :: t, hd => simp at hd
  · rintro (h | h) <;> (have hd := congrArg String.data h) <;>
      (simp at hd) <;> subst hd <;> rfl

theorem takeWhile_eq_self_of_all {α} (p : α → Bool) (l : List α)
    (h : ∀ a ∈ l, p a = true) : l.takeWhile p = l := by
  induction l with
  | nil => rfl
  | cons c t ih =>
    rw [List.takeWhile_cons, h c (List.mem_cons_self c t),
      ih (fun a ha => h a (List.mem_cons_of_mem c ha))]
    simp

theorem writesOf_append (l1 l2 : List Event) :
    writesOf (l1 ++ l2) = writesOf l1 ++ writesOf l2 := by
  simp [writesOf, List.filterMap_append]

theorem writesOf_transferEvents (chunks : List (List Nat)) :
    writesOf (transferEvents chunks)
      = chunks.takeWhile (fun c => !c.isEmpty) := by
  unfold transferEvents
  rw [writesOf_append]
  have h2 : writesOf [Event.recvData] = [] := rfl
  rw [h2, List.append_nil]
  generalize chunks.takeWhile (fun c => !c.isEmpty) = l
  induction l with
  | nil => rfl
  | cons c t ih =>
    simp only [List.flatMap_cons]
    rw [show [Event.recvData, Event.fileWrite c] ++ t.flatMap
        (fun c => [Event.recvData, Event.fileWrite c])
        = Event.recvData :: Event.fileWrite c :: t.flatMap
          (fun c => [Event.recvData, Event.fileWrite c]) from rfl]
    simp only [writesOf, List.filterMap_cons] at *
    rw [ih]


/-! ### Request-content and session helper lemmas -/

theorem reqContent_eq (dp : Nat) (cmd fn : String) :
    reqContent dp cmd fn
      = "PORTSTART:" ++ toString dp ++ "PORTEND" ++ "CMD:"
          ++ (if cmd = "-l" then "LIST"
              else if cmd = "-g" then "GET" ++ "FILENAME:" ++ fn ++ "FILENAMEEND"
              else "UNKNOWN") := by
  unfold reqContent
  by_cases h1 : cmd = "-l"
  · simp [h1]
  · by_cases h2 : cmd = "-g"
    · simp [h1, h2, String.append_assoc]
      rw [← String.append_assoc "PORTENDCMD:" "GETFILENAME:" (fn ++ "FILENAMEEND")]
      rfl
    · simp [h1, h2]

theorem reqContent_getLast_ne (dp : Nat) (cmd fn : String) :
    (reqContent dp cmd fn).data.getLast? ≠ some '\x00' := by
  rw [reqContent_eq, String.data_append, List.getLast?_append]
  by_cases h1 : cmd = "-l"
  · rw [if_pos h1]
    rw [show ("LIST" : String).data.getLast? = some 'T' from rfl]
    simp
  · by_cases h2 : cmd = "-g"
    · rw [if_neg h1, if_pos h2]
      rw [show ("GET" ++ "FILENAME:" ++ fn ++ "FILENAMEEND" : String).data
          = ("GET" ++ "FILENAME:" ++ fn : String).data ++ "FILENAMEEND".data
          from rfl]
      rw [List.getLast?_append]
      rw [show ("FILENAMEEND" : String).data.getLast? = some 'D' from rfl]
      simp
    · rw [if_neg h1, if_neg h2]
      rw [show ("UNKNOWN" : String).data.getLast? = some 'N' from rfl]
      simp

/-- The trace of the GET branch of `receiveData` when the deferred-error
check and the abort check both fall through. -/
theorem receiveData_get_eq (e : Env) (hg : e.cmd = "-g")
    (hnoerr : ¬ pyIn "ERROR" (getMsg e.statusRaw))
    (hnoabort : ¬ (e.fileExists = true ∧ pyLower e.answer = "n")) :
    receiveData e
      = (if e.fileExists = true then
          [Event.prompt (e.filename ++
            " already exists. Overwrite? N = no, anything else = yes")]
         else [])
        ++ [Event.fileOpen e.filename,
            Event.print ("Transferring " ++ e.filename ++ ".")]
        ++ transferEvents e.chunks
        ++ [Event.print "Transfer complete."] := by
  simp only [receiveData, hg, if_true, if_false]
  rw [if_neg (show ¬ ("-g" : String) = "-l" by decide),
    if_neg hnoerr, if_neg hnoabort]

/-- Environment on which the control-channel connect fails. -/
def envConnFail : Env := { baseEnv with connectOk := false }

/-! ### Claims -/

/-- Claim C1 (counterexample): the claim says the session-level check on the
first reply after sending the request uses exactly the "contains ERROR"
substring test.  On the reply "NOERRORHERE" — which does contain "ERROR" —
the session does not take the error branch: it proceeds to accept the data
connection and exits 0, because the module-level check tests for the
substring "ERROR:" (with a colon), not "ERROR". -/
theorem C1_counterexample :
    pyIn "ERROR" (getMsg "NOERRORHERE")
    ∧ Event.acceptData
        ∈ (mainTrace { baseEnv with confirmRaw := "NOERRORHERE" }).1
    ∧ (mainTrace { baseEnv with confirmRaw := "NOERRORHERE" }).2 = some 0 := by
  decide

/-- Claim C1 (amended): the deferred GET-branch check in `receiveData`
classifies a reply as an error exactly when the stripped text contains the
substring "ERROR" anywhere, while the session-level check on the first reply
after sending the request takes its error branch (equivalently, never
accepts a data connection) exactly when the text contains "ERROR:" with a
colon. -/
theorem C1_amended_classification (e : Env) (hg : e.cmd = "-g")
    (hc : e.connectOk = true) :
    ((receiveData e).head?
        = some (Event.print ("Message from server: " ++ getMsg e.statusRaw))
      ↔ pyIn "ERROR" (getMsg e.statusRaw))
    ∧ (Event.acceptData ∉ (mainTrace e).1
      ↔ pyIn "ERROR:" (getMsg e.confirmRaw)) := by
  constructor
  · by_cases herr : pyIn "ERROR" (getMsg e.statusRaw)
    · simp [receiveData, hg, herr]
    · by_cases hfe : e.fileExists = true
      · simp [receiveData, hg, herr, hfe]
        split <;> simp
      · simp [receiveData, hg, herr, hfe]
  · by_cases hconf : pyIn "ERROR:" (getMsg e.confirmRaw)
    · simp [mainTrace, hc, hconf]
    · simp [mainTrace, hc, hconf]

/-- Witness for C1 (amended) at the concrete GET environment. -/
theorem C1_amended_classification_witness :
    envGet.cmd = "-g" ∧ envGet.connectOk = true
    ∧ (((receiveData envGet).head?
          = some (Event.print ("Message from server: " ++ getMsg envGet.statusRaw))
        ↔ pyIn "ERROR" (getMsg envGet.statusRaw))
       ∧ (Event.acceptData ∉ (mainTrace envGet).1
        ↔ pyIn "ERROR:" (getMsg envGet.confirmRaw))) :=
  ⟨rfl, rfl, C1_amended_classification envGet rfl rfl⟩

set_option maxRecDepth 4096 in
/-- Claim C2 (counterexample): with the 5-digit data port 50000 and an
80-character filename, the unpadded content is 129 characters, so the
encoded request has length 130, not 100 — `makeRequest` pads but never
truncates. -/
theorem C2_counterexample :
    (toString (50000 : Nat)).length = 5
    ∧ (makeRequest 50000 "-g" (String.mk (List.replicate 80 'a'))).length = 130
    ∧ (makeRequest 50000 "-g" (String.mk (List.replicate 80 'a'))).length ≠ 100 := by
  decide

/-- Claim C2 (amended): when the unpadded content fits in 99 characters
(which the original claim's bound on the port alone does not guarantee for a
long GET filename), the encoded request has length exactly 100 and is the
content "PORTSTART:" ++ port ++ "PORTEND" ++ "CMD:" ++ body — body "LIST"
for `-l`, "GET" ++ "FILENAME:" ++ filename ++ "FILENAMEEND" for `-g`,
"UNKNOWN" otherwise — padded with '#' to 99 characters and terminated by a
single null byte. -/
theorem C2_amended_wire_format (dp : Nat) (cmd fn : String)
    (hlen : (reqContent dp cmd fn).length ≤ 99) :
    (makeRequest dp cmd fn).length = 100
    ∧ (makeRequest dp cmd fn).data
        = ("PORTSTART:" ++ toString dp ++ "PORTEND" ++ "CMD:"
            ++ (if cmd = "-l" then "LIST"
                else if cmd = "-g" then "GET" ++ "FILENAME:" ++ fn ++ "FILENAMEEND"
                else "UNKNOWN")).data
          ++ List.replicate (99 - (reqContent dp cmd fn).length) '#' ++ ['\x00'] := by
  constructor
  · rw [length_makeRequest, Nat.max_eq_right hlen]
  · rw [makeRequest_data, ← reqContent_eq]

/-- Witness for C2 (amended) at port 30021, command `-l`. -/
theorem C2_amended_wire_format_witness :
    (reqContent 30021 "-l" "x.txt").length ≤ 99
    ∧ ((makeRequest 30021 "-l" "x.txt").length = 100
       ∧ (makeRequest 30021 "-l" "x.txt").data
          = ("PORTSTART:" ++ toString (30021 : Nat) ++ "PORTEND" ++ "CMD:"
              ++ (if ("-l" : String) = "-l" then "LIST"
                  else if ("-l" : String) = "-g" then
                    "GET" ++ "FILENAME:" ++ "x.txt" ++ "FILENAMEEND"
                  else "UNKNOWN")).data
            ++ List.replicate (99 - (reqContent 30021 "-l" "x.txt").length) '#'
            ++ ['\x00']) :=
  ⟨by decide, C2_amended_wire_format 30021 "-l" "x.txt" (by decide)⟩

/-- Claim C3 (confirmed): when the first control reply is classified as an
error by the session-level check, the whole trace is: open the listener,
print the listening notice, connect and send, print the reply text, close
the control connection and the listener — never accepting on the listener —
and the process exits with code 0. -/
theorem C3_error_reply_graceful_exit (e : Env) (hc : e.connectOk = true)
    (herr : pyIn "ERROR:" (getMsg e.confirmRaw)) :
    (mainTrace e).1
      = [Event.listenOpen,
         Event.print ("Listening on data port " ++ toString e.dataPort),
         Event.controlOpen,
         Event.send (makeRequest e.dataPort e.cmd e.filename),
         Event.print (getMsg e.confirmRaw), Event.closeControl,
         Event.closeListener]
    ∧ (mainTrace e).2 = some 0
    ∧ Event.acceptData ∉ (mainTrace e).1 := by
  refine ⟨?_, ?_, ?_⟩ <;> simp [mainTrace, hc, herr]

/-- Witness for C3 at the concrete error-reply environment. -/
theorem C3_error_reply_graceful_exit_witness :
    envErrReply.connectOk = true
    ∧ pyIn "ERROR:" (getMsg envErrReply.confirmRaw)
    ∧ ((mainTrace envErrReply).1
        = [Event.listenOpen,
           Event.print ("Listening on data port "
             ++ toString envErrReply.dataPort),
           Event.controlOpen,
           Event.send (makeRequest envErrReply.dataPort envErrReply.cmd
             envErrReply.filename),
           Event.print (getMsg envErrReply.confirmRaw), Event.closeControl,
           Event.closeListener]
       ∧ (mainTrace envErrReply).2 = some 0
       ∧ Event.acceptData ∉ (mainTrace envErrReply).1) :=
  ⟨rfl, by decide, C3_error_reply_graceful_exit envErrReply rfl (by decide)⟩

/-- Claim C4 (confirmed): on a GET with no deferred error and no abort, the
file content written is exactly the concatenation of all received chunks —
each a `recv(1024)` result of at most `MAX_LIMIT` bytes, with the loop ended
only by a zero-length read — the file is opened under the requested name,
and a completion message is printed. -/
theorem C4_get_streams_all_chunks (e : Env) (hg : e.cmd = "-g")
    (hnoerr : ¬ pyIn "ERROR" (getMsg e.statusRaw))
    (hnoabort : ¬ (e.fileExists = true ∧ pyLower e.answer = "n"))
    (hchunks : ∀ c ∈ e.chunks, c ≠ [] ∧ c.length ≤ MAX_LIMIT) :
    fileBytes (receiveData e) = e.chunks.flatten
    ∧ Event.fileOpen e.filename ∈ receiveData e
    ∧ Event.print "Transfer complete." ∈ receiveData e := by
  have htw : e.chunks.takeWhile (fun c => !c.isEmpty) = e.chunks :=
    takeWhile_eq_self_of_all _ _ (fun c hc => by
      simp [List.isEmpty_eq_false]
      exact (hchunks c hc).1)
  rw [receiveData_get_eq e hg hnoerr hnoabort]
  refine ⟨?_, ?_, ?_⟩
  · rw [fileBytes, writesOf_append, writesOf_append, writesOf_append,
        writesOf_transferEvents, htw]
    have hpe : writesOf (if e.fileExists = true then
        [Event.prompt (e.filename ++
          " already exists. Overwrite? N = no, anything else = yes")]
       else []) = [] := by
      split <;> rfl
    rw [hpe]
    simp [writesOf]
  · simp
  · simp

/-- Witness for C4 at the concrete two-chunk GET environment. -/
theorem C4_get_streams_all_chunks_witness :
    envGetChunks.cmd = "-g"
    ∧ ¬ pyIn "ERROR" (getMsg envGetChunks.statusRaw)
    ∧ ¬ (envGetChunks.fileExists = true ∧ pyLower envGetChunks.answer = "n")
    ∧ (∀ c ∈ envGetChunks.chunks, c ≠ [] ∧ c.length ≤ MAX_LIMIT)
    ∧ (fileBytes (receiveData envGetChunks) = envGetChunks.chunks.flatten
       ∧ Event.fileOpen envGetChunks.filename ∈ receiveData envGetChunks
       ∧ Event.print "Transfer complete." ∈ receiveData envGetChunks) :=
  ⟨rfl, by decide, by decide, by decide,
    C4_get_streams_all_chunks envGetChunks rfl (by decide) (by decide)
      (by decide)⟩

/-- Claim C5 (confirmed): on a GET whose target file exists locally, the
user is prompted; answering exactly "n" or "N" yields precisely the prompt
and the abort notice — no file event and no data-connection read — and any
other answer proceeds: the file is opened, streamed and the completion
notice printed. -/
theorem C5_overwrite_prompt_policy (e : Env) (hg : e.cmd = "-g")
    (hnoerr : ¬ pyIn "ERROR" (getMsg e.statusRaw))
    (hfe : e.fileExists = true) :
    ((e.answer = "n" ∨ e.answer = "N") →
        receiveData e
          = [Event.prompt (e.filename ++
               " already exists. Overwrite? N = no, anything else = yes"),
             Event.print "Transfer aborted."])
    ∧ ((e.answer ≠ "n" ∧ e.answer ≠ "N") →
        receiveData e
          = Event.prompt (e.filename ++
               " already exists. Overwrite? N = no, anything else = yes")
            :: Event.fileOpen e.filename
            :: Event.print ("Transferring " ++ e.filename ++ ".")
            :: (transferEvents e.chunks
                ++ [Event.print "Transfer complete."])) := by
  constructor
  · intro hans
    have habort : e.fileExists = true ∧ pyLower e.answer = "n" :=
      ⟨hfe, (pyLower_eq_n_iff e.answer).mpr hans⟩
    simp only [receiveData, hg, if_true, if_false]
    rw [if_neg (show ¬ ("-g" : String) = "-l" by decide),
      if_neg hnoerr, if_pos habort, if_pos hfe]
    rfl
  · rintro ⟨h1, h2⟩
    have hno : ¬ (e.fileExists = true ∧ pyLower e.answer = "n") := by
      rintro ⟨-, hl⟩
      rcases (pyLower_eq_n_iff e.answer).mp hl with h | h
      exacts [h1 h, h2 h]
    rw [receiveData_get_eq e hg hnoerr hno, if_pos hfe]
    rfl

/-- Witness for C5 at the concrete existing-file environment (answer "n"). -/
theorem C5_overwrite_prompt_policy_witness :
    envGetExists.cmd = "-g"
    ∧ ¬ pyIn "ERROR" (getMsg envGetExists.statusRaw)
    ∧ envGetExists.fileExists = true
    ∧ (((envGetExists.answer = "n" ∨ envGetExists.answer = "N") →
          receiveData envGetExists
            = [Event.prompt (envGetExists.filename ++
                 " already exists. Overwrite? N = no, anything else = yes"),
               Event.print "Transfer aborted."])
       ∧ ((envGetExists.answer ≠ "n" ∧ envGetExists.answer ≠ "N") →
          receiveData envGetExists
            = Event.prompt (envGetExists.filename ++
                 " already exists. Overwrite? N = no, anything else = yes")
              :: Event.fileOpen envGetExists.filename
              :: Event.print ("Transferring " ++ envGetExists.filename ++ ".")
              :: (transferEvents envGetExists.chunks
                  ++ [Event.print "Transfer complete."]))) :=
  ⟨rfl, by decide, rfl,
    C5_overwrite_prompt_policy envGetExists rfl (by decide) rfl⟩

/-- Claim C6 (confirmed): on a GET whose deferred control-stream message
contains "ERROR", the entire transfer trace is: print the message, close the
control connection, close the data connection — no file is opened or
written and the data stream is never read. -/
theorem C6_deferred_error_check (e : Env) (hg : e.cmd = "-g")
    (herr : pyIn "ERROR" (getMsg e.statusRaw)) :
    receiveData e
      = [Event.print ("Message from server: " ++ getMsg e.statusRaw),
         Event.closeControl, Event.closeData]
    ∧ (∀ n, Event.fileOpen n ∉ receiveData e)
    ∧ (∀ c, Event.fileWrite c ∉ receiveData e)
    ∧ Event.recvData ∉ receiveData e := by
  refine ⟨?_, ?_, ?_, ?_⟩ <;> simp [receiveData, hg, herr]

/-- Witness for C6 at the concrete deferred-error environment. -/
theorem C6_deferred_error_check_witness :
    envGetErr.cmd = "-g"
    ∧ pyIn "ERROR" (getMsg envGetErr.statusRaw)
    ∧ (receiveData envGetErr
        = [Event.print ("Message from server: " ++ getMsg envGetErr.statusRaw),
           Event.closeControl, Event.closeData]
       ∧ (∀ n, Event.fileOpen n ∉ receiveData envGetErr)
       ∧ (∀ c, Event.fileWrite c ∉ receiveData envGetErr)
       ∧ Event.recvData ∉ receiveData envGetErr) :=
  ⟨rfl, by decide, C6_deferred_error_check envGetErr rfl (by decide)⟩

/-- Claim C7 (counterexample): the claim says cleanup is unconditional on
every terminal path, in particular when the control connection cannot be
established after the listener was opened.  On exactly that path the
listener is opened but never closed, and the process does not exit 0 (it
dies with an uncaught exception). -/
theorem C7_counterexample :
    Event.listenOpen ∈ (mainTrace envConnFail).1
    ∧ Event.closeListener ∉ (mainTrace envConnFail).1
    ∧ (mainTrace envConnFail).2 = none := by
  decide

/-- Claim C7 (amended): on the two graceful terminal paths — the
session-level error exit and normal completion — the process exits 0, the
control connection and the listener are always closed, and whenever a data
connection was accepted it is closed too; but on the path where the control
connect fails after the listener was opened, no cleanup runs. -/
theorem C7_amended_graceful_cleanup (e : Env) (hc : e.connectOk = true) :
    (mainTrace e).2 = some 0
    ∧ Event.closeControl ∈ (mainTrace e).1
    ∧ Event.closeListener ∈ (mainTrace e).1
    ∧ (Event.acceptData ∈ (mainTrace e).1 →
        Event.closeData ∈ (mainTrace e).1) := by
  by_cases hconf : pyIn "ERROR:" (getMsg e.confirmRaw) <;>
    (refine ⟨?_, ?_, ?_, ?_⟩ <;> simp [mainTrace, hc, hconf])

/-- Witness for C7 (amended) at the base environment. -/
theorem C7_amended_graceful_cleanup_witness :
    baseEnv.connectOk = true
    ∧ ((mainTrace baseEnv).2 = some 0
       ∧ Event.closeControl ∈ (mainTrace baseEnv).1
       ∧ Event.closeListener ∈ (mainTrace baseEnv).1
       ∧ (Event.acceptData ∈ (mainTrace baseEnv).1 →
           Event.closeData ∈ (mainTrace baseEnv).1)) :=
  ⟨rfl, C7_amended_graceful_cleanup baseEnv rfl⟩

/-- Claim C8 (counterexample): the claim says `getMsg` removes only the
trailing newline.  On the input "\nabc" the code's strip removes the leading
newline as well, so the delivered message differs from the claim's
remove-only-trailing reading. -/
theorem C8_counterexample :
    getMsg "\nabc" ≠ stripTrailingNewline "\nabc"
    ∧ getMsg "abc\n\n" ≠ stripTrailingNewline "abc\n\n" := by
  decide

/-- Claim C9 (confirmed): the encoded request always has length
`max L 99 + 1` where `L` is the unpadded content length — never shorter than
100, and strictly longer than 100 (no truncation, no error) once `L`
exceeds 99 — and it ends with exactly one null byte: the last character is
`'\0'` and the character before it never is. -/
theorem C9_length_and_terminator (dp : Nat) (cmd fn : String) :
    (makeRequest dp cmd fn).length = max (reqContent dp cmd fn).length 99 + 1
    ∧ (makeRequest dp cmd fn).data.getLast? = some '\x00'
    ∧ (makeRequest dp cmd fn).data.dropLast.getLast? ≠ some '\x00' := by
  refine ⟨length_makeRequest dp cmd fn, ?_, ?_⟩
  · rw [makeRequest_data]
    simp
  · rw [makeRequest_data, List.dropLast_concat]
    rcases hk : 99 - (reqContent dp cmd fn).length with _ | k
    · simp only [List.replicate_zero, List.append_nil]
      exact reqContent_getLast_ne dp cmd fn
    · rw [List.getLast?_append]
      rw [show (List.replicate (k + 1) '#').getLast? = some '#' by
        simp [List.getLast?_replicate]]
      simp

/-- Claim C10 (confirmed): on a GET that passes the deferred-error check and
the overwrite prompt, the target file is opened for writing before any read
of the data connection (only the optional prompt precedes the open), so
when the server closes the data connection without sending anything the
written content is empty — an existing file is replaced by an empty one. -/
theorem C10_truncate_before_read (e : Env) (hg : e.cmd = "-g")
    (hnoerr : ¬ pyIn "ERROR" (getMsg e.statusRaw))
    (hnoabort : ¬ (e.fileExists = true ∧ pyLower e.answer = "n")) :
    (∃ pre post, receiveData e = pre ++ Event.fileOpen e.filename :: post
        ∧ Event.recvData ∉ pre ∧ (∀ c, Event.fileWrite c ∉ pre))
    ∧ (e.chunks = [] → fileBytes (receiveData e) = []) := by
  constructor
  · refine ⟨(if e.fileExists = true then
        [Event.prompt (e.filename ++
          " already exists. Overwrite? N = no, anything else = yes")]
       else []),
      Event.print ("Transferring " ++ e.filename ++ ".")
        :: (transferEvents e.chunks ++ [Event.print "Transfer complete."]),
      ?_, ?_, ?_⟩
    · rw [receiveData_get_eq e hg hnoerr hnoabort]
      simp
    · split <;> simp
    · intro c
      split <;> simp
  · intro hch
    rw [fileBytes, receiveData_get_eq e hg hnoerr hnoabort,
        writesOf_append, writesOf_append, writesOf_append,
        writesOf_transferEvents, hch]
    have hpe : writesOf (if e.fileExists = true then
        [Event.prompt (e.filename ++
          " already exists. Overwrite? N = no, anything else = yes")]
       else []) = [] := by
      split <;> rfl
    rw [hpe]
    simp [writesOf]

/-- Witness for C10 at the concrete chunk-free GET environment. -/
theorem C10_truncate_before_read_witness :
    envGet.cmd = "-g"
    ∧ ¬ pyIn "ERROR" (getMsg envGet.statusRaw)
    ∧ ¬ (envGet.fileExists = true ∧ pyLower envGet.answer = "n")
    ∧ ((∃ pre post, receiveData envGet
          = pre ++ Event.fileOpen envGet.filename :: post
          ∧ Event.recvData ∉ pre ∧ (∀ c, Event.fileWrite c ∉ pre))
       ∧ (envGet.chunks = [] → fileBytes (receiveData envGet) = [])) :=
  ⟨rfl, by decide, by decide,
    C10_truncate_before_read envGet rfl (by decide) (by decide)⟩

end FTClient
